import Mathlib

/-!
Verification of the IB_MCP trading-assistant core against its specification.

The Python source under `src/telegram_bot/` is shallowly embedded here:
pure functions become Lean functions, the stateful handlers become explicit
state-passing functions, Python `float` amounts are modelled as `ℚ`
(the exact values appearing in the claims are exactly representable),
`Optional[T]` becomes `Option T`, and a Python call that may raise becomes
an `Except`/`Option` value.  Display strings formatted with f-strings are
modelled by inductives carrying the raw data instead of the rendered text.
-/

namespace IBMCP

/-! ## Data model (src/telegram_bot/models.py) -/

/-- `TradeAction` enum (models.py). -/
inductive TradeAction
  | BUY
  | SELL
  | HOLD
deriving DecidableEq, Repr

/-- `SignalStatus` enum (models.py). -/
inductive SignalStatus
  | pending
  | approved
  | rejected
  | expired
  | executed
  | failed
  | safety_blocked
deriving DecidableEq, Repr

/-- `TradeSignal` (models.py).  Floats are modelled as `ℚ`. -/
structure TradeSignal where
  ticker : String
  action : TradeAction
  quantity : Option ℚ := none
  order_type : Option String := none
  price : Option ℚ := none
  confidence : Option ℚ := none
  reason : Option String := none
  stop_loss : Option ℚ := none
  take_profit : Option ℚ := none
deriving DecidableEq, Repr

/-! ## Safety gate (src/telegram_bot/safety_guards.py)

The Python records each check's outcome in a `checks` dict whose values are
display strings such as `"BLOQUE ($20000 > $10000)"`.  We keep the dict as an
ordered association list and model each value by an inductive carrying the
raw numbers instead of the f-string rendering. -/

/-- Status of one safety check, as recorded in `checks` (safety_guards.py). -/
inductive CheckStatus
  | ok
  | okOrderValue (value : ℚ)
  | okOrders (n max : ℕ)
  | okPnl (pnl : ℚ)
  | blockedKillSwitch
  | blockedOrderValue (value max : ℚ)
  | blockedOrders (n max : ℕ)
  | blockedPnl (pnl max : ℚ)
  | blockedStopLoss
  | skipped
  | na
deriving DecidableEq, Repr

/-- `blocked_reason` of `SafetyCheckResult`, one constructor per
`return SafetyCheckResult(... blocked_reason=...)` site in `check_safety`,
carrying the data interpolated into the French message. -/
inductive BlockReason
  | killSwitch
  | orderValue (value max : ℚ)
  | dailyOrders (n max : ℕ)
  | dailyLoss (pnl : ℚ)
  | stopLossMissing
deriving DecidableEq, Repr

/-- `SafetyCheckResult` (models.py). -/
structure SafetyCheckResult where
  passed : Bool
  checks : List (String × CheckStatus) := []
  blocked_reason : Option BlockReason := none
deriving DecidableEq, Repr

/-- The account-state lookups `check_safety` performs through db.py:
`get_system_state("kill_switch")`, `get_daily_order_count()`, `get_daily_pnl()`. -/
structure AccountState where
  kill_switch : Option String
  daily_order_count : ℕ
  daily_pnl : ℚ
deriving DecidableEq, Repr

/-- `MAX_ORDER_VALUE_USD` (default `"10000"`). -/
def MAX_ORDER_VALUE_USD : ℚ := 10000

/-- `MAX_DAILY_ORDERS` (default `"10"`). -/
def MAX_DAILY_ORDERS : ℕ := 10

/-- `MAX_DAILY_LOSS_USD` (default `"2000"`). -/
def MAX_DAILY_LOSS_USD : ℚ := 2000

/-- Python truthiness of an `Optional[float]`: `None` and `0.0` are falsy
(`if signal.price and signal.quantity`). -/
def optTruthy : Option ℚ → Bool
  | none => false
  | some q => if q = 0 then false else true

/-- Checks 3–5 of `check_safety` (daily order count, daily P&L, stop-loss),
reached once the kill-switch and order-value checks have not returned. -/
def check_safety_rest (signal : TradeSignal) (st : AccountState)
    (checks : List (String × CheckStatus)) : SafetyCheckResult :=
  -- 3. Nombre d'ordres du jour
  if st.daily_order_count ≥ MAX_DAILY_ORDERS then
    { passed := false
      checks := checks ++ [("ordres_jour", .blockedOrders st.daily_order_count MAX_DAILY_ORDERS)]
      blocked_reason := some (.dailyOrders st.daily_order_count MAX_DAILY_ORDERS) }
  else
    let checks := checks ++ [("ordres_jour", .okOrders st.daily_order_count MAX_DAILY_ORDERS)]
    -- 4. Limite de pertes du jour
    if st.daily_pnl < -MAX_DAILY_LOSS_USD then
      { passed := false
        checks := checks ++ [("pertes_jour", .blockedPnl st.daily_pnl MAX_DAILY_LOSS_USD)]
        blocked_reason := some (.dailyLoss st.daily_pnl) }
    else
      let checks := checks ++ [("pertes_jour", .okPnl st.daily_pnl)]
      -- 5. Stop-loss obligatoire pour les achats
      if signal.action = .BUY ∧ signal.stop_loss = none then
        { passed := false
          checks := checks ++ [("stop_loss", .blockedStopLoss)]
          blocked_reason := some .stopLossMissing }
      else
        let checks := checks ++
          [("stop_loss", if signal.action ≠ .HOLD then CheckStatus.ok else CheckStatus.na)]
        { passed := true, checks := checks }

/-- `check_safety` (safety_guards.py).  The `await`ed db lookups are passed
in as `st`; the function is otherwise a direct transcription. -/
def check_safety (signal : TradeSignal) (st : AccountState) : SafetyCheckResult :=
  -- 1. Arret d'urgence
  if st.kill_switch = some "active" then
    { passed := false
      checks := [("arret_urgence", .blockedKillSwitch)]
      blocked_reason := some .killSwitch }
  else
    let checks := [("arret_urgence", CheckStatus.ok)]
    -- 2. Valeur de l'ordre
    if optTruthy signal.price && optTruthy signal.quantity then
      let order_value := signal.price.getD 0 * signal.quantity.getD 0
      if order_value > MAX_ORDER_VALUE_USD then
        { passed := false
          checks := checks ++ [("valeur_ordre", .blockedOrderValue order_value MAX_ORDER_VALUE_USD)]
          blocked_reason := some (.orderValue order_value MAX_ORDER_VALUE_USD) }
      else
        check_safety_rest signal st (checks ++ [("valeur_ordre", .okOrderValue order_value)])
    else
      check_safety_rest signal st (checks ++ [("valeur_ordre", .skipped)])

/-! ## Session health monitor (src/telegram_bot/bot.py, scheduled_session_monitor)

The monitor's process-wide globals `_ib_session_state` and
`_ib_recovery_attempts` become an explicit `MonitorState`; one scheduled run
of `scheduled_session_monitor` becomes a step function from the current
state and the probe outcome to the new state plus the notifications sent and
the recovery tool calls issued.  Sending a Telegram message and the recovery
tool calls are themselves wrapped in `try/except` in the source, so their
own failures do not alter the state transition. -/

/-- `_ib_session_state` values: `"unknown" | "healthy" | "recovering" | "notified"`. -/
inductive SessionState
  | unknown
  | healthy
  | recovering
  | notified
deriving DecidableEq, Repr

/-- The globals `_ib_session_state` and `_ib_recovery_attempts`. -/
structure MonitorState where
  ib_session_state : SessionState
  ib_recovery_attempts : ℕ
deriving DecidableEq, Repr

/-- Outcome of the `ib_get_auth_status` probe: either the parsed
`connected`/`authenticated` booleans (missing keys default to `False` via
`.get(..., False)`), or the tool call raised. -/
inductive ProbeResult
  | ok (connected authenticated : Bool)
  | exn
deriving DecidableEq, Repr

/-- Telegram notifications the monitor can emit. -/
inductive MonitorNotification
  | recovered
  | manualLoginRequired
  | backendLost
deriving DecidableEq, Repr

/-- Recovery tool calls the monitor can issue. -/
inductive RecoveryCall
  | ssodh_init
  | reauthenticate
deriving DecidableEq, Repr

/-- Result of one monitor run: new global state, notifications sent, and
recovery tool calls issued. -/
structure MonitorOutcome where
  state : MonitorState
  notifications : List MonitorNotification
  recovery_calls : List RecoveryCall
deriving DecidableEq, Repr

/-- `_IB_MAX_RECOVERY = 3`. -/
def _IB_MAX_RECOVERY : ℕ := 3

/-- One run of `scheduled_session_monitor` (bot.py lines 1276-1368). -/
def scheduled_session_monitor (s : MonitorState) (probe : ProbeResult) : MonitorOutcome :=
  match probe with
  | .exn =>
      -- MCP unreachable: state becomes "unknown", attempts untouched
      ⟨⟨.unknown, s.ib_recovery_attempts⟩, [], []⟩
  | .ok connected authenticated =>
    if connected && authenticated then
      -- Case 1: Healthy
      let notifs :=
        if s.ib_session_state = .recovering ∨ s.ib_session_state = .notified then
          [MonitorNotification.recovered]
        else []
      ⟨⟨.healthy, 0⟩, notifs, []⟩
    else if connected && !authenticated then
      -- Case 2: Connected but not authenticated → auto-repair
      if s.ib_session_state = .notified then
        ⟨s, [], []⟩
      else
        let attempts := s.ib_recovery_attempts + 1
        if attempts > _IB_MAX_RECOVERY then
          ⟨⟨.notified, attempts⟩, [MonitorNotification.manualLoginRequired], []⟩
        else
          ⟨⟨.recovering, attempts⟩, [], [RecoveryCall.ssodh_init, RecoveryCall.reauthenticate]⟩
    else
      -- Case 3: Not connected at all → notify once
      if s.ib_session_state ≠ .notified then
        ⟨⟨.notified, s.ib_recovery_attempts⟩, [MonitorNotification.backendLost], []⟩
      else
        ⟨s, [], []⟩

/-- Run the monitor over a sequence of probes, returning the list of
intermediate states (after each probe) and all notifications emitted. -/
def runMonitor (s : MonitorState) :
    List ProbeResult → List MonitorState × List MonitorNotification
  | [] => ([], [])
  | p :: ps =>
      let o := scheduled_session_monitor s p
      let (states, notifs) := runMonitor o.state ps
      (o.state :: states, o.notifications ++ notifs)

/-! ## Reasoning-engine retry (src/telegram_bot/orchestrator.py,
`Orchestrator._call_claude_with_retry`)

`self.client.messages.create(**kwargs)` either returns a message, raises
`anthropic.RateLimitError`, or raises some other exception.  The sequence of
outcomes of the successive attempts is passed in as `call`; the
`asyncio.sleep(wait)` durations are collected in `sleeps`. -/

/-- Outcome of one `messages.create` attempt. -/
inductive CallOutcome (α : Type)
  | success (msg : α)
  | rateLimited
  | otherError
deriving DecidableEq, Repr

/-- Error surfaced by `_call_claude_with_retry`. -/
inductive RetryError
  | rateLimited
  | other
deriving DecidableEq, Repr

/-- Result of `_call_claude_with_retry`: the returned message or surfaced
error, plus the backoff sleeps performed (in seconds, in order). -/
structure RetryResult (α : Type) where
  result : Except RetryError α
  sleeps : List ℕ
deriving Repr

/-- `max_retries = 4` (orchestrator.py line 70). -/
def max_retries : ℕ := 4

/-- The `for attempt in range(max_retries + 1)` loop of
`_call_claude_with_retry`, entered at `attempt` with `remaining` further
iterations available (`remaining = max_retries - attempt` along the real
call chain, so `remaining = 0` exactly when `attempt == max_retries`, the
condition under which the Python re-raises the rate-limit error). -/
def retryFrom {α : Type} (call : ℕ → CallOutcome α)
    (attempt remaining : ℕ) (sleeps : List ℕ) : RetryResult α :=
  match call attempt with
  | .success m => ⟨.ok m, sleeps⟩
  | .otherError => ⟨.error .other, sleeps⟩
  | .rateLimited =>
    match remaining with
    | 0 => ⟨.error .rateLimited, sleeps⟩
    | r + 1 =>
        -- wait = 30 * (attempt + 1)  # 30s, 60s, 90s, 120s
        retryFrom call (attempt + 1) r (sleeps ++ [30 * (attempt + 1)])

/-- `_call_claude_with_retry` (orchestrator.py lines 68-79). -/
def _call_claude_with_retry {α : Type} (call : ℕ → CallOutcome α) : RetryResult α :=
  retryFrom call 0 max_retries []

/-! ## MCP client manager (src/telegram_bot/mcp_clients.py)

`MCPClientManager` holds three dicts keyed by prefixed tool name or server
name; they are modelled as ordered association lists (server names are
distinct by construction — `MCP_SERVERS` is a dict).  One discovery attempt
against one server (creating the `MCPSession`, `initialize`, `list_tools`)
either yields the session id captured from the response headers plus the
tool list, or raises; the per-server outcome is supplied by `env`. -/

/-- One entry of `MCP_SERVERS`: server name, url, and prefix.  The source
dict key `"prefix"` is rendered `pfx` (Lean reserves the identifier). -/
structure MCPServerCfg where
  name : String
  url : String
  pfx : String
deriving DecidableEq, Repr

/-- A tool definition as returned by `tools/list`; only the `name` field is
consulted by the manager (the rest of the dict is carried around opaquely
and never inspected, so it is not modelled). -/
structure ToolDef where
  name : String
deriving DecidableEq, Repr

/-- Outcome of `initialize` + `list_tools` against one server: the captured
session id (`Mcp-Session-Id` header, possibly absent) and the tools, or an
exception. -/
inductive DiscoverOutcome
  | ok (session_id : Option String) (tools : List ToolDef)
  | failure
deriving DecidableEq, Repr

/-- An `MCPSession` after discovery: its url and captured session id. -/
structure MCPSessionSt where
  url : String
  session_id : Option String
deriving DecidableEq, Repr

/-- The manager's state: `_tools` (prefixed name ↦ (server, original name)),
`_server_tools` (server ↦ tool list), `_sessions` (server ↦ session). -/
structure MgrState where
  tools : List (String × String × String)
  server_tools : List (String × List ToolDef)
  sessions : List (String × MCPSessionSt)
deriving DecidableEq, Repr

/-- `MCPClientManager.discover_tools` (mcp_clients.py lines 136-164): the
state starts cleared; each server is processed in order inside
`try/except Exception`, so one server's failure leaves only its
`_server_tools[name] = []` entry and never aborts the loop (in this
embedding the loop is a total function: it cannot raise). -/
def discover_tools : List MCPServerCfg → (String → DiscoverOutcome) → MgrState
  | [], _ => ⟨[], [], []⟩
  | cfg :: rest, env =>
    let tail := discover_tools rest env
    match env cfg.name with
    | .ok sid ts =>
        ⟨ts.map (fun t => (cfg.pfx ++ "_" ++ t.name, cfg.name, t.name)) ++ tail.tools,
         (cfg.name, ts) :: tail.server_tools,
         (cfg.name, ⟨cfg.url, sid⟩) :: tail.sessions⟩
    | .failure =>
        ⟨tail.tools, (cfg.name, []) :: tail.server_tools, tail.sessions⟩

/-- One entry of `MCPClientManager.get_server_status` (mcp_clients.py lines
194-207). -/
structure ServerStatus where
  url : String
  pfx : String
  tools_count : ℕ
  connected : Bool
  session_id : Option String
deriving DecidableEq, Repr

/-- The status dict entry built for one server by `get_server_status`:
`tools = self._server_tools.get(server_name, [])`,
`session = self._sessions.get(server_name)`. -/
def statusFor (st : MgrState) (cfg : MCPServerCfg) : ServerStatus :=
  let tools := (st.server_tools.lookup cfg.name).getD []
  let session := st.sessions.lookup cfg.name
  { url := cfg.url
    pfx := cfg.pfx
    tools_count := tools.length
    connected := tools.length > 0
    session_id := session.bind MCPSessionSt.session_id }

/-- `MCPClientManager.get_server_status`: one `statusFor` entry per
configured server. -/
def get_server_status (servers : List MCPServerCfg) (st : MgrState) :
    List (String × ServerStatus) :=
  servers.map fun cfg => (cfg.name, statusFor st cfg)

/-! ## Signal lifecycle handlers and order execution (src/telegram_bot/bot.py)

The persistent `trade_signals` table is modelled by its id ↦ status map (the
other columns never influence control flow in the handlers), the in-memory
working set `pending_signals` by an id ↦ signal association list.
`update_signal_status` (db.py lines 60-76) is an unconditional SQL `UPDATE
... WHERE id=?`: it rewrites the row's status whatever its current value.
Telegram message edits and `insert_trade_history` rows are not modelled (no
claim depends on them); the sequence of `update_signal_status` calls a
handler makes is recorded in `status_writes`. -/

/-- The bot's signal state: the `trade_signals` table (id ↦ status) and the
in-memory `pending_signals` dict. -/
structure BotState where
  db : List (ℕ × SignalStatus)
  pending_signals : List (ℕ × TradeSignal)
deriving DecidableEq, Repr

/-- `update_signal_status` (db.py): `UPDATE trade_signals SET status=? WHERE
id=?` — unconditional, no re-check of the current status. -/
def update_signal_status (db : List (ℕ × SignalStatus)) (sid : ℕ)
    (status : SignalStatus) : List (ℕ × SignalStatus) :=
  db.map fun p => if p.1 = sid then (p.1, status) else p

/-- `pending_signals.pop(signal_id, None)`. -/
def pop_pending (p : List (ℕ × TradeSignal)) (sid : ℕ) : List (ℕ × TradeSignal) :=
  p.filter fun q => q.1 ≠ sid

/-- Parsed `ib_get_auth_status` payload:
`auth_data.get("connected", False)`, `auth_data.get("authenticated", False)`. -/
structure AuthStatus where
  connected : Bool
  authenticated : Bool
deriving DecidableEq, Repr

/-- Outcomes of the brokerage tool calls `_execute_order` can make: the
pre-check probe (`.error` = the call raised), the two recovery calls and the
re-check probe inside the inner `try`, and the order placement.  The
`ib_preview_order_iserver_account` call is in its own `try/except` and has
no observable effect, so it is not modelled. -/
structure ExecEnv where
  probe : Except Unit AuthStatus
  recovery_init : Except Unit Unit
  recovery_reauth : Except Unit Unit
  recheck : Except Unit AuthStatus
  place_order : Except Unit Unit
deriving Repr

/-- Value of `auth_authenticated` after the inner recovery `try` block of
`_execute_order` (bot.py lines 1032-1042): it was `False` on entry (we are
in the `connected and not authenticated` branch), and is overwritten by the
re-check's `authenticated` only if `ib_ssodh_init`, `ib_reauthenticate` and
the re-check all return; any exception is caught and leaves it `False`. -/
def recoveredAuth (env : ExecEnv) : Bool :=
  match env.recovery_init, env.recovery_reauth, env.recheck with
  | .ok _, .ok _, .ok d => d.authenticated
  | _, _, _ => false

/-- How one `_execute_order` run ended. -/
inductive ExecOutcome
  | not_found
  | withheld_session_expired
  | withheld_connection_lost
  | executed
  | failed
deriving DecidableEq, Repr

/-- Observable effects of one `_execute_order` run: the new bot state, the
outcome, whether `ib_place_order_iserver_account` was invoked, and the
`update_signal_status` writes in order. -/
structure ExecEffects where
  state : BotState
  outcome : ExecOutcome
  order_call_made : Bool
  status_writes : List SignalStatus
deriving DecidableEq, Repr

/-- The session pre-check of `_execute_order` (bot.py lines 1024-1059),
given the parsed probe data: `some` = withheld with that outcome, `none` =
fall through to execution. -/
def _execute_order_precheck (env : ExecEnv) (d : AuthStatus) : Option ExecOutcome :=
  if d.connected && !d.authenticated then
    if !recoveredAuth env then some .withheld_session_expired
    else none
  else if !d.connected then some .withheld_connection_lost
  else none

/-- The execution part of `_execute_order` after the pre-check (bot.py lines
1064-1162): pop from `pending_signals`, write `approved`, place the order,
then write `executed` on success or `failed` when placement raised. -/
def _execute_order_submit (env : ExecEnv) (sid : ℕ) (st : BotState) : ExecEffects :=
  let db1 := update_signal_status st.db sid .approved
  let pend1 := pop_pending st.pending_signals sid
  match env.place_order with
  | .ok _ =>
      ⟨⟨update_signal_status db1 sid .executed, pend1⟩, .executed, true,
        [.approved, .executed]⟩
  | .error _ =>
      ⟨⟨update_signal_status db1 sid .failed, pend1⟩, .failed, true,
        [.approved, .failed]⟩

/-- `_execute_order` (bot.py lines 1016-1162).  `sigArg` is the `signal`
argument; when falsy the handler falls back to `pending_signals.get` and
returns untouched if the signal is unknown.  A probe that raises is caught
(`"Pre-check session failed (continuing)"`) and execution continues best
effort. -/
def _execute_order (env : ExecEnv) (sid : ℕ) (sigArg : Option TradeSignal)
    (st : BotState) : ExecEffects :=
  match sigArg.or (st.pending_signals.lookup sid) with
  | none => ⟨st, .not_found, false, []⟩
  | some _ =>
    match env.probe with
    | .ok d =>
        match _execute_order_precheck env d with
        | some w => ⟨st, w, false, []⟩
        | none => _execute_order_submit env sid st
    | .error _ => _execute_order_submit env sid st

/-- `_handle_reject` (bot.py lines 1165-1169): pops the pending entry and
unconditionally writes `rejected` — no re-check of the record's status. -/
def _handle_reject (sid : ℕ) (st : BotState) : BotState :=
  ⟨update_signal_status st.db sid .rejected, pop_pending st.pending_signals sid⟩

/-- `_handle_cancel_execute` (bot.py lines 1172-1176): same shape as
`_handle_reject` (`user_decision="cancelled"`). -/
def _handle_cancel_execute (sid : ℕ) (st : BotState) : BotState :=
  ⟨update_signal_status st.db sid .rejected, pop_pending st.pending_signals sid⟩

/-- `_handle_approve_step1` (bot.py lines 935-962): shows the confirmation
dialog; whether or not the signal is still pending it writes neither the db
nor the pending set. -/
def _handle_approve_step1 (sid : ℕ) (st : BotState) : BotState :=
  st

/-- Result of `is_us_market_open` plus the weekend/holiday
sub-classification used by `_handle_confirm_execute`. -/
inductive MarketGate
  | openNow
  | closedWeekendHoliday
  | outsideHours
deriving DecidableEq, Repr

/-- `_handle_confirm_execute` (bot.py lines 965-1013): no-op on the state
unless the signal is still in `pending_signals` and the market is open (the
closed/outside-hours branches only edit the Telegram message). -/
def _handle_confirm_execute (env : ExecEnv) (gate : MarketGate) (sid : ℕ)
    (st : BotState) : BotState × Option ExecOutcome :=
  match st.pending_signals.lookup sid with
  | none => (st, none)
  | some sig =>
    match gate with
    | .openNow =>
        let r := _execute_order env sid (some sig) st
        (r.state, some r.outcome)
    | _ => (st, none)

/-- `scheduled_expire_signals` (bot.py lines 1375-1408): reads the rows with
status `pending` (`get_pending_signals`), then marks those older than the
TTL `expired` and drops them from `pending_signals`.  `isExpiredAge sid`
abstracts `age_minutes > SIGNAL_EXPIRY_MINUTES` (false also when
`created_at` fails to parse, the `continue` branch). -/
def scheduled_expire_signals (st : BotState) (isExpiredAge : ℕ → Bool) : BotState :=
  let rows := st.db.filter fun p => p.2 = SignalStatus.pending
  rows.foldl
    (fun acc p =>
      if isExpiredAge p.1 then
        ⟨update_signal_status acc.db p.1 .expired, pop_pending acc.pending_signals p.1⟩
      else acc)
    st

/-! ## Python string primitives for the trade-signal extractor
(src/telegram_bot/orchestrator.py, `Orchestrator._extract_trade_signals`)

Python `str` values are modelled as `List Char`; `str.split(sep)`,
`str.find(sub)` and `str.strip()` are transcribed below with Python's
semantics (leftmost non-overlapping occurrences for `split`, index of the
first occurrence or `-1` — here `none` — for `find`, whitespace trimming at
both ends for `strip`). -/

/-- The backtick character (written via its code point). -/
def backtick : Char := Char.ofNat 0x60

/-- The code fence `"` ++ "``" ++ "`" ++ `"` delimiting marker blocks. -/
def fenceL : List Char := [backtick, backtick, backtick]

/-- The marker `fence ++ "trade_signal"` that opens a trade-signal block. -/
def markerL : List Char := fenceL ++ ['t', 'r', 'a', 'd', 'e', '_', 's', 'i', 'g', 'n', 'a', 'l']

/-- Scanner for Python `text.split(sep)`, with an explicit step budget so
that the recursion is structural (the kernel can then evaluate it); each
step consumes one budget unit and at least one character, so a budget of
`l.length` never runs out (the `0, l` fallback is unreachable then). -/
def pySplitF (sep : List Char) : ℕ → List Char → List (List Char)
  | _, [] => [[]]
  | 0, l => [l]
  | fuel + 1, c :: rest =>
    if sep ≠ [] ∧ sep.isPrefixOf (c :: rest) then
      [] :: pySplitF sep fuel (rest.drop (sep.length - 1))
    else
      match pySplitF sep fuel rest with
      | [] => [[c]]
      | chunk :: more => (c :: chunk) :: more

/-- Python `text.split(sep)` for a non-empty separator (an empty separator
raises in Python; callers here always pass the marker). -/
def pySplit (sep : List Char) (l : List Char) : List (List Char) :=
  pySplitF sep l.length l

/-- Python `text.find(sub)`: index of the first occurrence, `none` for -1. -/
def pyFind (sub : List Char) : List Char → Option ℕ
  | [] => if sub = [] then some 0 else none
  | c :: rest =>
    if sub.isPrefixOf (c :: rest) then some 0
    else (pyFind sub rest).map (· + 1)

/-- Python `str.isspace` on the ASCII whitespace `str.strip()` removes. -/
def isPySpace (c : Char) : Bool :=
  c = ' ' ∨ c = '\t' ∨ c = '\n' ∨ c = '\r' ∨ c = '\x0b' ∨ c = '\x0c'

/-- Python `text.strip()`. -/
def pyStrip (l : List Char) : List Char :=
  ((l.dropWhile isPySpace).reverse.dropWhile isPySpace).reverse

/-- Whether `m` occurs (as a contiguous run) anywhere in `l`. -/
def occursB (m : List Char) : List Char → Bool
  | [] => m.isPrefixOf []
  | c :: rest => m.isPrefixOf (c :: rest) || occursB m rest

/-- `m` cannot overlap a shifted copy of itself: no proper non-empty suffix
position `d` makes `m.drop d` a prefix of `m`.  Holds for the marker, and
rules out occurrences straddling the marker's boundaries. -/
def noSelfOverlapB (m : List Char) : Bool :=
  (List.range m.length).all fun d => d = 0 || !((m.drop d).isPrefixOf m)

/-! ## JSON values and `json.loads`

`json.loads` is modelled by a recursive-descent parser over `List Char`
producing `Json` values: objects keep insertion order with Python-dict
duplicate-key semantics (last value wins, position kept), numbers are exact
rationals (Python parses them to IEEE floats; the difference is invisible
to every claim), `\\uXXXX` escapes outside the BMP surrogate mechanism are
decoded directly, and the parse fuel is generous enough for any input the
claims touch (Python's parser has its own recursion limit). -/

/-- JSON values.  Strings are kept as `List Char`. -/
inductive Json
  | null
  | bool (b : Bool)
  | num (q : ℚ)
  | str (s : List Char)
  | arr (elems : List Json)
  | obj (members : List (List Char × Json))

/-- Skip JSON whitespace (space, tab, newline, carriage return). -/
def skipWs (l : List Char) : List Char :=
  l.dropWhile fun c => c = ' ' ∨ c = '\t' ∨ c = '\n' ∨ c = '\r'

/-- Value of a hexadecimal digit. -/
def hexVal (c : Char) : Option ℕ :=
  if '0' ≤ c ∧ c ≤ '9' then some (c.toNat - '0'.toNat)
  else if 'a' ≤ c ∧ c ≤ 'f' then some (c.toNat - 'a'.toNat + 10)
  else if 'A' ≤ c ∧ c ≤ 'F' then some (c.toNat - 'A'.toNat + 10)
  else none

/-- Single-character JSON string escapes. -/
def escChar : Char → Option Char
  | '"' => some '"'
  | '\\' => some '\\'
  | '/' => some '/'
  | 'b' => some '\x08'
  | 'f' => some '\x0c'
  | 'n' => some '\n'
  | 'r' => some '\r'
  | 't' => some '\t'
  | _ => none

/-- Parse the body of a JSON string after the opening quote, returning the
decoded characters and the input following the closing quote. -/
def parseStringBody : List Char → Option (List Char × List Char)
  | [] => none
  | c :: rest =>
    if c = '"' then some ([], rest)
    else if c = '\\' then
      match rest with
      | [] => none
      | 'u' :: h1 :: h2 :: h3 :: h4 :: rest2 =>
        match hexVal h1, hexVal h2, hexVal h3, hexVal h4 with
        | some a, some b, some c2, some d =>
            (parseStringBody rest2).map fun p =>
              (Char.ofNat (((a * 16 + b) * 16 + c2) * 16 + d) :: p.1, p.2)
        | _, _, _, _ => none
      | e :: rest2 =>
        match escChar e with
        | some ec => (parseStringBody rest2).map fun p => (ec :: p.1, p.2)
        | none => none
    else if c.toNat < 0x20 then none
    else (parseStringBody rest).map fun p => (c :: p.1, p.2)

/-- Numeric value of a run of decimal digits. -/
def natOfDigits (ds : List Char) : ℕ :=
  ds.foldl (fun n c => n * 10 + (c.toNat - '0'.toNat)) 0

/-- Parse a JSON number token (`-? int frac? exp?`, leading zeros rejected
by taking only the single `0`), returning its exact rational value. -/
def parseNumber (l : List Char) : Option (Json × List Char) :=
  let signStep : Bool × List Char :=
    match l with
    | '-' :: r => (true, r)
    | _ => (false, l)
  match signStep.2 with
  | [] => none
  | c :: r =>
    if c.isDigit then
      let intStep : List Char × List Char :=
        if c = '0' then ([c], r)
        else (c :: r.takeWhile Char.isDigit, r.dropWhile Char.isDigit)
      let fracStep : Option (List Char × List Char) :=
        match intStep.2 with
        | '.' :: r2 =>
            let ds := r2.takeWhile Char.isDigit
            if ds.isEmpty then none else some (ds, r2.dropWhile Char.isDigit)
        | _ => some ([], intStep.2)
      match fracStep with
      | none => none
      | some (fdigits, l3) =>
        let expStep : Option (Bool × List Char × List Char) :=
          match l3 with
          | e :: r3 =>
            if e = 'e' ∨ e = 'E' then
              let signedTail : Bool × List Char :=
                match r3 with
                | '+' :: r5 => (false, r5)
                | '-' :: r5 => (true, r5)
                | _ => (false, r3)
              let ds := signedTail.2.takeWhile Char.isDigit
              if ds.isEmpty then none
              else some (signedTail.1, ds, signedTail.2.dropWhile Char.isDigit)
            else some (false, [], l3)
          | [] => some (false, [], l3)
        match expStep with
        | none => none
        | some (eneg, edigits, l4) =>
          if fdigits.isEmpty && edigits.isEmpty then
            -- no fraction and no exponent: `json.loads` yields a Python int
            some (.num (((if signStep.1 then -(natOfDigits intStep.1 : ℤ)
                          else (natOfDigits intStep.1 : ℤ)) : ℤ) : ℚ), l4)
          else
            -- otherwise a Python float; its exact decimal value as a rational
            let mantissa : ℚ :=
              (natOfDigits intStep.1 : ℚ) +
                (natOfDigits fdigits : ℚ) / (10 : ℚ) ^ fdigits.length
            let expVal : ℤ :=
              if eneg then -(natOfDigits edigits : ℤ) else (natOfDigits edigits : ℤ)
            some (.num ((if signStep.1 then -mantissa else mantissa) * (10 : ℚ) ^ expVal), l4)
    else none

/-- Python-dict insertion for object members: a duplicate key replaces the
value in place, a new key is appended. -/
def objInsert (kvs : List (List Char × Json)) (k : List Char) (v : Json) :
    List (List Char × Json) :=
  if kvs.any (fun p => p.1 = k) then
    kvs.map fun p => if p.1 = k then (p.1, v) else p
  else kvs ++ [(k, v)]

mutual

/-- Parse one JSON value (fuel-bounded recursive descent). -/
def parseVal : ℕ → List Char → Option (Json × List Char)
  | 0, _ => none
  | fuel + 1, l =>
    match skipWs l with
    | 'n' :: 'u' :: 'l' :: 'l' :: rest => some (.null, rest)
    | 't' :: 'r' :: 'u' :: 'e' :: rest => some (.bool true, rest)
    | 'f' :: 'a' :: 'l' :: 's' :: 'e' :: rest => some (.bool false, rest)
    | '"' :: rest => (parseStringBody rest).map fun p => (.str p.1, p.2)
    | '[' :: rest =>
      (match skipWs rest with
        | ']' :: r => some (.arr [], r)
        | _ => parseItems fuel rest [])
    | '\x7b' :: rest =>
      (match skipWs rest with
        | '\x7d' :: r => some (.obj [], r)
        | _ => parseMembers fuel rest [])
    | l2 => parseNumber l2

/-- Parse the comma-separated items of a non-empty JSON array. -/
def parseItems : ℕ → List Char → List Json → Option (Json × List Char)
  | 0, _, _ => none
  | fuel + 1, l, acc =>
    match parseVal fuel l with
    | none => none
    | some (v, rest) =>
      match skipWs rest with
      | ',' :: r => parseItems fuel r (acc ++ [v])
      | ']' :: r => some (.arr (acc ++ [v]), r)
      | _ => none

/-- Parse the comma-separated members of a non-empty JSON object. -/
def parseMembers : ℕ → List Char → List (List Char × Json) →
    Option (Json × List Char)
  | 0, _, _ => none
  | fuel + 1, l, acc =>
    match skipWs l with
    | '"' :: r =>
      (match parseStringBody r with
        | none => none
        | some (key, rest) =>
          match skipWs rest with
          | ':' :: r2 =>
            (match parseVal fuel r2 with
              | none => none
              | some (v, rest2) =>
                match skipWs rest2 with
                | ',' :: r3 => parseMembers fuel r3 (objInsert acc key v)
                | '\x7d' :: r3 => some (.obj (objInsert acc key v), r3)
                | _ => none)
          | _ => none)
    | _ => none

end

/-- `json.loads`: one value, then only trailing whitespace. -/
def jsonParse (l : List Char) : Option Json :=
  match parseVal (2 * l.length + 2) l with
  | some (j, rest) => if skipWs rest = [] then some j else none
  | none => none

/-! ## Trade-signal extraction (orchestrator.py, `_extract_trade_signals`)

For each part after a `markerL` split, the extractor finds the closing
fence, strips the enclosed text, `json.loads` it and builds a
`TradeSignal`.  The `except` clause catches exactly `json.JSONDecodeError`,
`KeyError` and `ValueError` (pydantic's `ValidationError` and the
`TradeAction(...)` member lookup raise `ValueError`); a block whose JSON is
not an object makes `data["ticker"]` raise an uncaught `TypeError` (as does
`TradeAction(...)` on an unhashable value), which aborts the whole
extraction — hence the `Except` result type.  pydantic's lax coercion of
numeric strings into float fields is not modelled (no claim exercises it). -/

/-- `TradeAction(value)`: the enum member with that string value. -/
def tradeActionOfString (s : List Char) : Option TradeAction :=
  if s = "BUY".data then some .BUY
  else if s = "SELL".data then some .SELL
  else if s = "HOLD".data then some .HOLD
  else none

/-- pydantic validation of an `Optional[float]` field from `data.get(k)`:
absent and JSON `null` give `None`; a JSON number is accepted; any other
type raises `ValidationError`. -/
def optFloatField : Option Json → Option (Option ℚ)
  | none => some none
  | some Json.null => some none
  | some (Json.num q) => some (some q)
  | some _ => none

/-- pydantic validation of an `Optional[str]` field. -/
def optStrField : Option Json → Option (Option String)
  | none => some none
  | some Json.null => some none
  | some (Json.str s) => some (some (String.mk s))
  | some _ => none

/-- Fate of one marker block inside the `try` of `_extract_trade_signals`. -/
inductive ParsedBlock
  | signal (s : TradeSignal)
  | skipped
  | typeError
deriving DecidableEq, Repr

/-- Construction of a `TradeSignal` from the parsed JSON value `data`
(orchestrator.py lines 196-208), classifying which exception escapes:
`data["ticker"]` on a non-object raises `TypeError` (uncaught), a missing
`ticker`/`action` raises `KeyError` (caught), `TradeAction(...)` on an
unhashable value raises `TypeError` (uncaught) and on any other non-member
value `ValueError` (caught), and pydantic field validation raises
`ValueError` (caught). -/
def signalOfJson : Json → ParsedBlock
  | .obj members =>
    match members.lookup "ticker".data with
    | none => .skipped
    | some tv =>
      match members.lookup "action".data with
      | none => .skipped
      | some av =>
        match av with
        | .arr _ => .typeError
        | .obj _ => .typeError
        | .str a =>
          (match tradeActionOfString a with
            | none => .skipped
            | some act =>
              match tv with
              | .str t =>
                (match optFloatField (members.lookup "quantity".data),
                      optStrField (members.lookup "order_type".data),
                      optFloatField (members.lookup "price".data),
                      optFloatField (members.lookup "confidence".data),
                      optStrField (members.lookup "reason".data),
                      optFloatField (members.lookup "stop_loss".data),
                      optFloatField (members.lookup "take_profit".data) with
                  | some qty, some ot, some pr, some cf, some rs, some sl, some tp =>
                      .signal ⟨String.mk t, act, qty, ot, pr, cf, rs, sl, tp⟩
                  | _, _, _, _, _, _, _ => .skipped)
              | _ => .skipped)
        | _ => .skipped
  | _ => .typeError  -- data is not a dict: `data["ticker"]` raises TypeError

/-- One marker block's text through `json.loads` + `TradeSignal(...)`. -/
def parseBlock (chars : List Char) : ParsedBlock :=
  match jsonParse chars with
  | none => .skipped
  | some j => signalOfJson j

/-- The `for i in range(1, len(parts))` loop of `_extract_trade_signals`. -/
def extractLoop : List (List Char) → List TradeSignal → Except Unit (List TradeSignal)
  | [], acc => .ok acc
  | part :: rest, acc =>
    match pyFind fenceL part with
    | none => extractLoop rest acc
    | some e =>
      match parseBlock (pyStrip (part.take e)) with
      | .signal s => extractLoop rest (acc ++ [s])
      | .skipped => extractLoop rest acc
      | .typeError => .error ()

/-- `Orchestrator._extract_trade_signals` (orchestrator.py lines 183-212). -/
def _extract_trade_signals (text : List Char) : Except Unit (List TradeSignal) :=
  match pySplit markerL text with
  | [] => .ok []
  | _ :: parts => extractLoop parts []

/-- The string value of a `TradeAction` member. -/
def actionString : TradeAction → List Char
  | .BUY => "BUY".data
  | .SELL => "SELL".data
  | .HOLD => "HOLD".data

/-- A parsed optional-number field agrees with the JSON member. -/
def optNumMatches : Option Json → Option ℚ → Prop
  | none, none => True
  | some Json.null, none => True
  | some (Json.num x), some y => y = x
  | _, _ => False

/-- A parsed optional-string field agrees with the JSON member. -/
def optStrMatches : Option Json → Option String → Prop
  | none, none => True
  | some Json.null, none => True
  | some (Json.str x), some y => y = String.mk x
  | _, _ => False

/-- The claim's "fields match the JSON in the block": each `TradeSignal`
field equals the correspondingly named member of the block's JSON object. -/
def fieldsMatch (s : TradeSignal) (j : Json) : Prop :=
  match j with
  | .obj members =>
      members.lookup "ticker".data = some (.str s.ticker.data) ∧
      members.lookup "action".data = some (.str (actionString s.action)) ∧
      optNumMatches (members.lookup "quantity".data) s.quantity ∧
      optStrMatches (members.lookup "order_type".data) s.order_type ∧
      optNumMatches (members.lookup "price".data) s.price ∧
      optNumMatches (members.lookup "confidence".data) s.confidence ∧
      optStrMatches (members.lookup "reason".data) s.reason ∧
      optNumMatches (members.lookup "stop_loss".data) s.stop_loss ∧
      optNumMatches (members.lookup "take_profit".data) s.take_profit
  | _ => False

/-! Concrete exemplar texts for the extractor, following the block format
shown in the orchestrator's system prompt. -/

/-- Text preceding the marker block. -/
def c8Pre : List Char := ("Analyse terminee.\n").data

/-- Text after the closing fence. -/
def c8Post : List Char := ("\n").data

/-- A well-formed trade-signal block body. -/
def c8GoodBody : List Char :=
  ("\n\x7b\"ticker\": \"AAPL\", \"action\": \"BUY\", \"quantity\": 10, " ++
   "\"order_type\": \"LMT\", \"price\": 185, \"confidence\": 72, " ++
   "\"reason\": \"Fondamentaux solides\", \"stop_loss\": 180, " ++
   "\"take_profit\": 195\x7d\n").data

/-- The `TradeSignal` the well-formed block denotes. -/
def c8GoodSignal : TradeSignal :=
  { ticker := "AAPL", action := .BUY, quantity := some 10, order_type := some "LMT",
    price := some 185, confidence := some 72, reason := some "Fondamentaux solides",
    stop_loss := some 180, take_profit := some 195 }

/-- A malformed block body: its action is outside BUY/SELL/HOLD. -/
def c8BadBody : List Char :=
  ("\n\x7b\"ticker\": \"AAPL\", \"action\": \"WAIT\"\x7d\n").data

/-! ## Theorems -/

/-- C2: for every `TradeSignal` and every account state, if the kill-switch
system flag is `"active"` then `check_safety` returns `passed = false` with a
`blocked_reason` referencing the kill-switch, regardless of every other field
of the signal and of the daily order count and daily P&L; the check runs
first and short-circuits all later checks (the result records only the
kill-switch check). -/
theorem C2_kill_switch_blocks_first (signal : TradeSignal) (st : AccountState)
    (h : st.kill_switch = some "active") :
    check_safety signal st =
      { passed := false
        checks := [("arret_urgence", .blockedKillSwitch)]
        blocked_reason := some .killSwitch } := by
  simp [check_safety, h]

/-- Witness for C2 at a concrete signal and account state. -/
theorem C2_kill_switch_blocks_first_witness :
    check_safety
      { ticker := "AAPL", action := .BUY, quantity := some 10, order_type := some "LMT",
        price := some (371/2), confidence := some 72, stop_loss := some 180,
        take_profit := some 195 }
      { kill_switch := some "active", daily_order_count := 3, daily_pnl := -100 } =
      { passed := false
        checks := [("arret_urgence", .blockedKillSwitch)]
        blocked_reason := some .killSwitch } :=
  C2_kill_switch_blocks_first _ _ rfl

/-- C5 counterexample: at the boundary `daily_pnl = -MAX_DAILY_LOSS_USD`
exactly, `check_safety` passes the signal (the code tests
`daily_pnl < -MAX_DAILY_LOSS_USD` strictly), contradicting the claim that it
is blocked at the boundary. -/
theorem C5_boundary_counterexample :
    (AccountState.daily_pnl ⟨none, 0, -MAX_DAILY_LOSS_USD⟩ ≤ -MAX_DAILY_LOSS_USD) ∧
    (check_safety
        { ticker := "AAPL", action := .SELL, quantity := some 10, price := some 100 }
        ⟨none, 0, -MAX_DAILY_LOSS_USD⟩).passed = true ∧
    (check_safety
        { ticker := "AAPL", action := .SELL, quantity := some 10, price := some 100 }
        ⟨none, 0, -MAX_DAILY_LOSS_USD⟩).blocked_reason = none := by
  refine ⟨le_refl _, ?_, ?_⟩ <;>
  · unfold check_safety check_safety_rest
    norm_num [optTruthy, MAX_ORDER_VALUE_USD, MAX_DAILY_ORDERS, MAX_DAILY_LOSS_USD]
    simp

/-- C5 (amended): for every signal and account state that pass the
kill-switch, order-value and daily-order-count checks, `check_safety` blocks
citing today's realized P&L whenever that P&L is strictly below the
configured negative floor (`daily_pnl < -MAX_DAILY_LOSS_USD`); at the
boundary `daily_pnl = -MAX_DAILY_LOSS_USD` the check does not block. -/
theorem C5_daily_loss_blocks_strictly_below (signal : TradeSignal) (st : AccountState)
    (h1 : st.kill_switch ≠ some "active")
    (h2 : (optTruthy signal.price && optTruthy signal.quantity) = true →
          signal.price.getD 0 * signal.quantity.getD 0 ≤ MAX_ORDER_VALUE_USD)
    (h3 : st.daily_order_count < MAX_DAILY_ORDERS)
    (h4 : st.daily_pnl < -MAX_DAILY_LOSS_USD) :
    (check_safety signal st).passed = false ∧
    (check_safety signal st).blocked_reason = some (.dailyLoss st.daily_pnl) := by
  have key : ∀ checks, (check_safety_rest signal st checks).passed = false ∧
      (check_safety_rest signal st checks).blocked_reason = some (.dailyLoss st.daily_pnl) := by
    intro checks
    unfold check_safety_rest
    rw [if_neg (not_le.mpr h3), if_pos h4]
    exact ⟨rfl, rfl⟩
  unfold check_safety
  rw [if_neg h1]
  by_cases hv : (optTruthy signal.price && optTruthy signal.quantity) = true
  · simp only [hv, if_true]
    rw [if_neg (not_lt.mpr (h2 hv))]
    exact key _
  · simp only [hv, if_false]
    exact key _

/-- C3 counterexample: with `_IB_MAX_RECOVERY = 3`, starting from `healthy`
with attempt counter 0, three consecutive connected-and-not-authenticated
probes leave the state at `recovering` (attempt counter 3) with no
notification emitted — not at `notified` as the claim states: the code only
sets `notified` when the counter strictly exceeds the maximum, which first
happens on the fourth probe. -/
theorem C3_three_probes_counterexample :
    (runMonitor ⟨.healthy, 0⟩ [.ok true false, .ok true false, .ok true false]).1 =
      [⟨.recovering, 1⟩, ⟨.recovering, 2⟩, ⟨.recovering, 3⟩] ∧
    (runMonitor ⟨.healthy, 0⟩ [.ok true false, .ok true false, .ok true false]).2 = [] ∧
    SessionState.recovering ≠ SessionState.notified := by
  decide

/-- C3 (amended): with `_IB_MAX_RECOVERY = 3`, starting from `healthy` with
attempt counter 0, consecutive connected-and-not-authenticated probes drive
the state through `recovering, recovering, recovering`; a fourth such probe
drives it to `notified` with the single "manual login required" notification;
a subsequent connected-and-authenticated probe drives the state back to
`healthy`, resets the attempt counter to 0, and emits the one-time
"recovered" notification. -/
theorem C3_recovery_trace :
    runMonitor ⟨.healthy, 0⟩
      [.ok true false, .ok true false, .ok true false, .ok true false, .ok true true] =
      ([⟨.recovering, 1⟩, ⟨.recovering, 2⟩, ⟨.recovering, 3⟩, ⟨.notified, 4⟩, ⟨.healthy, 0⟩],
       [.manualLoginRequired, .recovered]) := by
  decide

/-- Witness for the amended C5 at a concrete signal and account state with
`daily_pnl = -2001 < -2000`. -/
theorem C5_daily_loss_blocks_strictly_below_witness :
    (check_safety
        { ticker := "TSLA", action := .SELL, quantity := some 10, price := some 100 }
        ⟨none, 0, -2001⟩).passed = false ∧
    (check_safety
        { ticker := "TSLA", action := .SELL, quantity := some 10, price := some 100 }
        ⟨none, 0, -2001⟩).blocked_reason = some (.dailyLoss (-2001)) :=
  C5_daily_loss_blocks_strictly_below _ _ (by simp)
    (by intro _; norm_num [MAX_ORDER_VALUE_USD])
    (by norm_num [MAX_DAILY_ORDERS])
    (by norm_num [MAX_DAILY_LOSS_USD])

/-- Unfolding one iteration of the retry loop on a rate-limited attempt. -/
theorem retryFrom_rateLimited_step {α : Type} (call : ℕ → CallOutcome α)
    (attempt r : ℕ) (sleeps : List ℕ) (hcall : call attempt = .rateLimited) :
    retryFrom call attempt (r + 1) sleeps =
      retryFrom call (attempt + 1) r (sleeps ++ [30 * (attempt + 1)]) := by
  rw [retryFrom, hcall]

/-- The retry loop returns the message as soon as an attempt succeeds. -/
theorem retryFrom_success {α : Type} (call : ℕ → CallOutcome α)
    (attempt remaining : ℕ) (sleeps : List ℕ) (m : α)
    (hcall : call attempt = .success m) :
    retryFrom call attempt remaining sleeps = ⟨.ok m, sleeps⟩ := by
  cases remaining <;> simp [retryFrom, hcall]

/-- The retry loop surfaces a non-rate-limit failure immediately. -/
theorem retryFrom_otherError {α : Type} (call : ℕ → CallOutcome α)
    (attempt remaining : ℕ) (sleeps : List ℕ)
    (hcall : call attempt = .otherError) :
    retryFrom call attempt remaining sleeps = ⟨.error .other, sleeps⟩ := by
  cases remaining <;> simp [retryFrom, hcall]

/-- With no iterations left (`attempt == max_retries`), a rate-limited
attempt re-raises. -/
theorem retryFrom_rateLimited_exhausted {α : Type} (call : ℕ → CallOutcome α)
    (attempt : ℕ) (sleeps : List ℕ) (hcall : call attempt = .rateLimited) :
    retryFrom call attempt 0 sleeps = ⟨.error .rateLimited, sleeps⟩ := by
  simp [retryFrom, hcall]

/-- Skipping past `k` consecutive rate-limited attempts accumulates the
backoff sleeps `30*(attempt+1), …, 30*(attempt+k)`. -/
theorem retryFrom_skip {α : Type} (call : ℕ → CallOutcome α) (k : ℕ) :
    ∀ (remaining attempt : ℕ) (sleeps : List ℕ), k ≤ remaining →
      (∀ i, attempt ≤ i → i < attempt + k → call i = CallOutcome.rateLimited) →
      retryFrom call attempt remaining sleeps =
        retryFrom call (attempt + k) (remaining - k)
          (sleeps ++ (List.range k).map fun j => 30 * (attempt + j + 1)) := by
  induction k with
  | zero => intro remaining attempt sleeps _ _; simp
  | succ k ih =>
    intro remaining attempt sleeps hk hrl
    obtain ⟨r, rfl⟩ : ∃ r, remaining = r + 1 := ⟨remaining - 1, by omega⟩
    have hcall : call attempt = CallOutcome.rateLimited := hrl attempt le_rfl (by omega)
    rw [retryFrom_rateLimited_step call attempt r sleeps hcall]
    rw [ih r (attempt + 1) (sleeps ++ [30 * (attempt + 1)]) (by omega)
        (fun i h1 h2 => hrl i (by omega) (by omega))]
    congr 1
    · omega
    · omega
    · rw [List.append_assoc]
      congr 1
      rw [List.range_succ_eq_map, List.map_cons, List.map_map]
      simp only [List.singleton_append, Nat.add_zero]
      congr 1
      exact List.map_congr_left fun j _ => by simp only [Function.comp_apply, Nat.succ_eq_add_one]; ring

/-- C7: a rate-limited reasoning-engine call is retried up to 4 retries with
the backoff schedule 30 s, 60 s, 90 s, 120 s, after which the rate-limit
error is surfaced; a success or non-rate-limit failure at attempt `k` ends
the loop immediately with exactly the `k` backoff sleeps of the earlier
rate-limited attempts (in particular, a non-rate-limit failure is never
retried). -/
theorem C7_rate_limit_retry {α : Type} (call : ℕ → CallOutcome α) :
    ((∀ i, i ≤ max_retries → call i = CallOutcome.rateLimited) →
      _call_claude_with_retry call = ⟨.error .rateLimited, [30, 60, 90, 120]⟩) ∧
    (∀ k m, k ≤ max_retries → (∀ i, i < k → call i = CallOutcome.rateLimited) →
      call k = CallOutcome.success m →
      _call_claude_with_retry call = ⟨.ok m, (List.range k).map fun j => 30 * (j + 1)⟩) ∧
    (∀ k, k ≤ max_retries → (∀ i, i < k → call i = CallOutcome.rateLimited) →
      call k = CallOutcome.otherError →
      _call_claude_with_retry call = ⟨.error .other, (List.range k).map fun j => 30 * (j + 1)⟩) := by
  have hskip : ∀ k, k ≤ max_retries → (∀ i, i < k → call i = CallOutcome.rateLimited) →
      _call_claude_with_retry call =
        retryFrom call k (max_retries - k) ((List.range k).map fun j => 30 * (j + 1)) := by
    intro k hk hrl
    unfold _call_claude_with_retry
    rw [retryFrom_skip call k max_retries 0 [] hk (fun i h1 h2 => hrl i (by omega))]
    simp
  refine ⟨?_, ?_, ?_⟩
  · intro hall
    rw [hskip max_retries le_rfl (fun i hi => hall i (by omega))]
    rw [Nat.sub_self,
      retryFrom_rateLimited_exhausted call max_retries _ (hall max_retries le_rfl)]
    simp [max_retries, List.range_succ]
  · intro k m hk hrl hsucc
    rw [hskip k hk hrl, retryFrom_success call k _ _ m hsucc]
  · intro k hk hrl herr
    rw [hskip k hk hrl, retryFrom_otherError call k _ _ herr]

/-- Witness for C7: two rate-limited attempts then a success returns the
message after sleeping 30 s and 60 s; an immediate non-rate-limit failure
surfaces with no sleeps. -/
theorem C7_rate_limit_retry_witness :
    _call_claude_with_retry (α := String)
        (fun i => if i < 2 then CallOutcome.rateLimited else CallOutcome.success "ok") =
      ⟨.ok "ok", [30, 60]⟩ ∧
    _call_claude_with_retry (α := String) (fun _ => CallOutcome.otherError) =
      ⟨.error .other, []⟩ := by
  constructor
  · have h := (C7_rate_limit_retry
        (fun i => if i < 2 then CallOutcome.rateLimited else CallOutcome.success "ok")).2.1
        2 "ok" (by norm_num [max_retries]) (fun i hi => if_pos hi) (by norm_num)
    simpa using h
  · have h := (C7_rate_limit_retry (α := String) (fun _ => CallOutcome.otherError)).2.2
        0 (by norm_num [max_retries]) (fun i hi => absurd hi (by omega)) rfl
    simpa using h

/-- Discovery records a `_server_tools` entry for every configured server,
in configuration order. -/
theorem discover_tools_server_keys (servers : List MCPServerCfg)
    (env : String → DiscoverOutcome) :
    (discover_tools servers env).server_tools.map Prod.fst =
      servers.map MCPServerCfg.name := by
  induction servers with
  | nil => rfl
  | cons cfg rest ih =>
    cases h : env cfg.name <;> simp [discover_tools, h, ih]

/-- A name not among the configured servers has no `_server_tools` and no
`_sessions` entry after discovery. -/
theorem discover_tools_lookup_none (servers : List MCPServerCfg)
    (env : String → DiscoverOutcome) (k : String)
    (hk : k ∉ servers.map MCPServerCfg.name) :
    (discover_tools servers env).server_tools.lookup k = none ∧
    (discover_tools servers env).sessions.lookup k = none := by
  induction servers with
  | nil => simp [discover_tools]
  | cons cfg rest ih =>
    simp only [List.map_cons, List.mem_cons, not_or] at hk
    obtain ⟨hne, hnotin⟩ := hk
    have hbe : (k == cfg.name) = false := beq_eq_false_iff_ne.mpr hne
    cases h : env cfg.name <;>
      simp [discover_tools, h, List.lookup, hbe, ih hnotin]

/-- A server whose discovery succeeded has its tool list and its session
(with the captured session id) recorded, independently of every other
server's outcome. -/
theorem discover_tools_lookup_ok (servers : List MCPServerCfg)
    (env : String → DiscoverOutcome) (cfg : MCPServerCfg)
    (hmem : cfg ∈ servers) (hnodup : (servers.map MCPServerCfg.name).Nodup)
    (sid : Option String) (ts : List ToolDef) (henv : env cfg.name = .ok sid ts) :
    (discover_tools servers env).server_tools.lookup cfg.name = some ts ∧
    (discover_tools servers env).sessions.lookup cfg.name = some ⟨cfg.url, sid⟩ := by
  induction servers with
  | nil => cases hmem
  | cons c rest ih =>
    simp only [List.map_cons, List.nodup_cons] at hnodup
    obtain ⟨hnotin, hnodup'⟩ := hnodup
    rcases List.mem_cons.mp hmem with rfl | hmem'
    · simp [discover_tools, henv, List.lookup]
    · have hne : cfg.name ≠ c.name := by
        intro he
        exact hnotin (he ▸ List.mem_map_of_mem MCPServerCfg.name hmem')
      have hbe : (cfg.name == c.name) = false := beq_eq_false_iff_ne.mpr hne
      cases h : env c.name <;>
        simp [discover_tools, h, List.lookup, hbe, ih hmem' hnodup']

/-- A server whose discovery failed has an empty tool list recorded and no
session stored. -/
theorem discover_tools_lookup_failure (servers : List MCPServerCfg)
    (env : String → DiscoverOutcome) (cfg : MCPServerCfg)
    (hmem : cfg ∈ servers) (hnodup : (servers.map MCPServerCfg.name).Nodup)
    (henv : env cfg.name = .failure) :
    (discover_tools servers env).server_tools.lookup cfg.name = some [] ∧
    (discover_tools servers env).sessions.lookup cfg.name = none := by
  induction servers with
  | nil => cases hmem
  | cons c rest ih =>
    simp only [List.map_cons, List.nodup_cons] at hnodup
    obtain ⟨hnotin, hnodup'⟩ := hnodup
    rcases List.mem_cons.mp hmem with rfl | hmem'
    · have hnone := discover_tools_lookup_none rest env cfg.name hnotin
      simp [discover_tools, henv, List.lookup, hnone.2]
    · have hne : cfg.name ≠ c.name := by
        intro he
        exact hnotin (he ▸ List.mem_map_of_mem MCPServerCfg.name hmem')
      have hbe : (cfg.name == c.name) = false := beq_eq_false_iff_ne.mpr hne
      cases h : env c.name <;>
        simp [discover_tools, h, List.lookup, hbe, ih hmem' hnodup']

/-- C6: tool discovery treats every configured backend independently: the
loop records an entry for every backend (and, being a total function,
cannot raise); a backend whose handshake or listing failed is recorded with
an empty tool list and reported with `tools_count = 0`, `connected = false`
and no session; every backend whose own discovery succeeded has its tools
and session recorded exactly as listed, regardless of other backends'
failures. -/
theorem C6_discovery_isolates_failures (servers : List MCPServerCfg)
    (env : String → DiscoverOutcome)
    (hnodup : (servers.map MCPServerCfg.name).Nodup) :
    ((discover_tools servers env).server_tools.map Prod.fst =
        servers.map MCPServerCfg.name) ∧
    (∀ cfg ∈ servers, env cfg.name = .failure →
        statusFor (discover_tools servers env) cfg =
          ⟨cfg.url, cfg.pfx, 0, false, none⟩) ∧
    (∀ cfg ∈ servers, ∀ sid ts, env cfg.name = .ok sid ts →
        (discover_tools servers env).server_tools.lookup cfg.name = some ts ∧
        (discover_tools servers env).sessions.lookup cfg.name = some ⟨cfg.url, sid⟩) := by
  refine ⟨discover_tools_server_keys servers env, ?_, ?_⟩
  · intro cfg hmem henv
    obtain ⟨h1, h2⟩ := discover_tools_lookup_failure servers env cfg hmem hnodup henv
    simp [statusFor, h1, h2]
  · intro cfg hmem sid ts henv
    exact discover_tools_lookup_ok servers env cfg hmem hnodup sid ts henv

/-- Witness for C6: two configured backends, the first succeeding with one
tool, the second failing — the second is reported down, the first's tools
are recorded. -/
theorem C6_discovery_isolates_failures_witness :
    (statusFor
        (discover_tools
          [⟨"ib", "http://mcp_server:5002/mcp", "ib"⟩,
           ⟨"news", "http://mcp_news:5005/mcp/mcp/", "news"⟩]
          (fun n => if n = "ib" then .ok (some "sess1") [⟨"get_auth_status"⟩]
                    else .failure))
        ⟨"news", "http://mcp_news:5005/mcp/mcp/", "news"⟩ =
      ⟨"http://mcp_news:5005/mcp/mcp/", "news", 0, false, none⟩) ∧
    ((discover_tools
          [⟨"ib", "http://mcp_server:5002/mcp", "ib"⟩,
           ⟨"news", "http://mcp_news:5005/mcp/mcp/", "news"⟩]
          (fun n => if n = "ib" then .ok (some "sess1") [⟨"get_auth_status"⟩]
                    else .failure)).server_tools.lookup "ib" =
      some [⟨"get_auth_status"⟩]) := by
  have h := C6_discovery_isolates_failures
    [⟨"ib", "http://mcp_server:5002/mcp", "ib"⟩,
     ⟨"news", "http://mcp_news:5005/mcp/mcp/", "news"⟩]
    (fun n => if n = "ib" then .ok (some "sess1") [⟨"get_auth_status"⟩] else .failure)
    (by simp)
  exact ⟨h.2.1 ⟨"news", "http://mcp_news:5005/mcp/mcp/", "news"⟩ (by simp) (by simp),
    (h.2.2 ⟨"ib", "http://mcp_server:5002/mcp", "ib"⟩ (by simp)
      (some "sess1") [⟨"get_auth_status"⟩] (by simp)).1⟩

/-- C10: for every backend the status report's connectivity flag equals
"discovered tool count > 0"; in particular a backend whose discovery
succeeded with zero tools is reported `connected = false` (exactly like a
failed backend, cf. C6) while its stored session identifier is still
reported. -/
theorem C10_connected_iff_tool_count :
    (∀ (st : MgrState) (cfg : MCPServerCfg),
        (statusFor st cfg).connected = decide (0 < (statusFor st cfg).tools_count)) ∧
    (∀ (servers : List MCPServerCfg) (env : String → DiscoverOutcome)
        (cfg : MCPServerCfg) (sid : Option String), cfg ∈ servers →
        (servers.map MCPServerCfg.name).Nodup → env cfg.name = .ok sid [] →
        statusFor (discover_tools servers env) cfg =
          ⟨cfg.url, cfg.pfx, 0, false, sid⟩) := by
  constructor
  · intro st cfg
    rfl
  · intro servers env cfg sid hmem hnodup henv
    obtain ⟨h1, h2⟩ := discover_tools_lookup_ok servers env cfg hmem hnodup sid [] henv
    simp [statusFor, h1, h2]

/-- Witness for C10: a single backend that handshakes fine but exposes zero
tools is reported disconnected with its session id. -/
theorem C10_connected_iff_tool_count_witness :
    statusFor
        (discover_tools [⟨"sentiment", "http://mcp_sentiment:5004/mcp/mcp/", "sentiment"⟩]
          (fun _ => .ok (some "abc") []))
        ⟨"sentiment", "http://mcp_sentiment:5004/mcp/mcp/", "sentiment"⟩ =
      ⟨"http://mcp_sentiment:5004/mcp/mcp/", "sentiment", 0, false, some "abc"⟩ :=
  C10_connected_iff_tool_count.2 _ _ _ _ (by simp) (by simp) rfl

/-- `update_signal_status` leaves every other record's status unchanged. -/
theorem update_signal_status_lookup_ne (db : List (ℕ × SignalStatus)) (k k' : ℕ)
    (s : SignalStatus) (h : k' ≠ k) :
    (update_signal_status db k s).lookup k' = db.lookup k' := by
  induction db with
  | nil => rfl
  | cons p rest ih =>
    rcases p with ⟨pk, pv⟩
    by_cases hp : pk = k
    · subst hp
      simp only [update_signal_status, List.map_cons, if_pos rfl]
      simp only [List.lookup, beq_eq_false_iff_ne.mpr h]
      simpa [update_signal_status] using ih
    · simp only [update_signal_status, List.map_cons, if_neg hp]
      by_cases hk' : k' = pk
      · simp [List.lookup, hk']
      · simp only [List.lookup, beq_eq_false_iff_ne.mpr hk']
        simpa [update_signal_status] using ih

/-- With distinct ids, a row's membership determines the lookup result. -/
theorem lookup_of_mem_nodup (db : List (ℕ × SignalStatus)) (k : ℕ) (v : SignalStatus)
    (hnodup : (db.map Prod.fst).Nodup) (hmem : (k, v) ∈ db) :
    db.lookup k = some v := by
  induction db with
  | nil => cases hmem
  | cons p rest ih =>
    simp only [List.map_cons, List.nodup_cons] at hnodup
    obtain ⟨hnotin, hnodup'⟩ := hnodup
    rcases List.mem_cons.mp hmem with rfl | hmem'
    · simp [List.lookup]
    · have hne : k ≠ p.1 := by
        intro he
        exact hnotin (he ▸ List.mem_map_of_mem Prod.fst hmem')
      simp only [List.lookup, beq_eq_false_iff_ne.mpr hne]
      exact ih hnodup' hmem'

/-- The expiry fold never touches a record whose id is not among the swept
rows. -/
theorem expire_foldl_lookup_ne (isExp : ℕ → Bool) (sid : ℕ) :
    ∀ (rows : List (ℕ × SignalStatus)) (acc : BotState),
      (∀ p ∈ rows, p.1 ≠ sid) →
      ((rows.foldl
          (fun acc p =>
            if isExp p.1 then
              ⟨update_signal_status acc.db p.1 .expired, pop_pending acc.pending_signals p.1⟩
            else acc)
          acc).db.lookup sid) = acc.db.lookup sid := by
  intro rows
  induction rows with
  | nil => intro acc _; rfl
  | cons p rest ih =>
    intro acc hrows
    simp only [List.foldl_cons]
    by_cases hc : isExp p.1 = true
    · rw [if_pos hc,
        ih _ (fun q hq => hrows q (List.mem_cons_of_mem p hq))]
      exact update_signal_status_lookup_ne acc.db p.1 sid .expired
        (Ne.symm (hrows p (List.mem_cons_self p rest)))
    · rw [if_neg hc]
      exact ih _ (fun q hq => hrows q (List.mem_cons_of_mem p hq))

/-- C1: when the pre-execution auth probe returns a result that reports the
session as connected-but-unauthenticated and the single inline recovery
attempt's re-check still reports unauthenticated, or reports the session as
not connected, `_execute_order` makes no order-placement call, writes no
status, and leaves the whole bot state (db rows and the pending working
set) untouched — the signal remains pending. -/
theorem C1_no_order_while_unauthenticated (env : ExecEnv) (sid : ℕ)
    (sigArg : Option TradeSignal) (st : BotState) (d : AuthStatus)
    (hprobe : env.probe = .ok d)
    (hbad : (d.connected = true ∧ d.authenticated = false ∧ recoveredAuth env = false) ∨
            d.connected = false) :
    (_execute_order env sid sigArg st).order_call_made = false ∧
    (_execute_order env sid sigArg st).state = st ∧
    (_execute_order env sid sigArg st).status_writes = [] := by
  have hpre : ∃ w, _execute_order_precheck env d = some w := by
    rcases hbad with ⟨hc, ha, hr⟩ | hc
    · exact ⟨.withheld_session_expired, by simp [_execute_order_precheck, hc, ha, hr]⟩
    · exact ⟨.withheld_connection_lost, by simp [_execute_order_precheck, hc]⟩
  obtain ⟨w, hw⟩ := hpre
  cases hsig : sigArg.or (st.pending_signals.lookup sid) with
  | none => simp [_execute_order, hsig]
  | some s => simp [_execute_order, hsig, hprobe, hw]

/-- Witness for C1: a connected-but-unauthenticated probe whose recovery
re-check is still unauthenticated leaves the pending signal untouched and
makes no order call. -/
theorem C1_no_order_while_unauthenticated_witness :
    (_execute_order ⟨.ok ⟨true, false⟩, .ok (), .ok (), .ok ⟨true, false⟩, .ok ()⟩ 1 none
        ⟨[(1, .pending)], [(1, { ticker := "AAPL", action := .BUY })]⟩).order_call_made
        = false ∧
    (_execute_order ⟨.ok ⟨true, false⟩, .ok (), .ok (), .ok ⟨true, false⟩, .ok ()⟩ 1 none
        ⟨[(1, .pending)], [(1, { ticker := "AAPL", action := .BUY })]⟩).state
        = ⟨[(1, .pending)], [(1, { ticker := "AAPL", action := .BUY })]⟩ ∧
    (_execute_order ⟨.ok ⟨true, false⟩, .ok (), .ok (), .ok ⟨true, false⟩, .ok ()⟩ 1 none
        ⟨[(1, .pending)], [(1, { ticker := "AAPL", action := .BUY })]⟩).status_writes
        = [] :=
  C1_no_order_while_unauthenticated _ 1 none _ ⟨true, false⟩ rfl
    (Or.inl ⟨rfl, rfl, rfl⟩)

/-- C9 (implicit): if the pre-execution auth probe itself raises, the
exception is caught and `_execute_order` does not withhold: it proceeds to
pop the signal from the pending set, writes `approved` first, and invokes
the order placement tool — the no-order-while-unauthenticated guarantee
only applies when the probe returns a result. -/
theorem C9_probe_exception_best_effort (env : ExecEnv) (sid : ℕ)
    (sigArg : Option TradeSignal) (st : BotState) (sig : TradeSignal)
    (hprobe : env.probe = .error ())
    (hfound : sigArg.or (st.pending_signals.lookup sid) = some sig) :
    _execute_order env sid sigArg st = _execute_order_submit env sid st ∧
    (_execute_order env sid sigArg st).order_call_made = true ∧
    (_execute_order env sid sigArg st).state.pending_signals =
      pop_pending st.pending_signals sid ∧
    (_execute_order env sid sigArg st).status_writes.head? = some SignalStatus.approved := by
  have heq : _execute_order env sid sigArg st = _execute_order_submit env sid st := by
    simp [_execute_order, hfound, hprobe]
  refine ⟨heq, ?_, ?_, ?_⟩ <;> rw [heq] <;> unfold _execute_order_submit <;>
    cases env.place_order <;> simp

/-- Witness for C9: the probe raises, the order is submitted anyway. -/
theorem C9_probe_exception_best_effort_witness :
    (_execute_order ⟨.error (), .ok (), .ok (), .ok ⟨true, true⟩, .ok ()⟩ 1 none
        ⟨[(1, .pending)], [(1, { ticker := "AAPL", action := .BUY })]⟩).order_call_made
        = true ∧
    (_execute_order ⟨.error (), .ok (), .ok (), .ok ⟨true, true⟩, .ok ()⟩ 1 none
        ⟨[(1, .pending)], [(1, { ticker := "AAPL", action := .BUY })]⟩).status_writes.head?
        = some SignalStatus.approved := by
  have h := C9_probe_exception_best_effort
    ⟨.error (), .ok (), .ok (), .ok ⟨true, true⟩, .ok ()⟩ 1 none
    ⟨[(1, .pending)], [(1, { ticker := "AAPL", action := .BUY })]⟩
    { ticker := "AAPL", action := .BUY } rfl rfl
  exact ⟨h.2.1, h.2.2.2⟩

/-- C4 counterexample: a record already in the terminal status `expired` is
overwritten with `rejected` by `_handle_reject`, which writes without
re-checking the record's current status — the claimed invariant fails. -/
theorem C4_terminal_overwrite_counterexample :
    (_handle_reject 1 ⟨[(1, SignalStatus.expired)], []⟩).db.lookup 1 =
      some SignalStatus.rejected ∧
    ([(1, SignalStatus.expired)] : List (ℕ × SignalStatus)).lookup 1 =
      some SignalStatus.expired ∧
    SignalStatus.expired ≠ SignalStatus.rejected := by
  decide

/-- C4 (amended): the first approval step writes nothing; the confirm step
and the execution path no-op when the signal is no longer in the in-memory
pending working set; the expiry sweep only rewrites records whose stored
status is `pending`; but the reject and cancel handlers write `rejected`
unconditionally without re-checking the stored status, so a record already
in a terminal status (e.g. `expired`) can still be overwritten with
`rejected`. -/
theorem C4_status_recheck_partial :
    (∀ (sid : ℕ) (st : BotState), _handle_approve_step1 sid st = st) ∧
    (∀ (env : ExecEnv) (gate : MarketGate) (sid : ℕ) (st : BotState),
        st.pending_signals.lookup sid = none →
        _handle_confirm_execute env gate sid st = (st, none)) ∧
    (∀ (env : ExecEnv) (sid : ℕ) (st : BotState),
        st.pending_signals.lookup sid = none →
        _execute_order env sid none st = ⟨st, .not_found, false, []⟩) ∧
    (∀ (st : BotState) (isExp : ℕ → Bool) (sid : ℕ),
        (st.db.map Prod.fst).Nodup →
        st.db.lookup sid ≠ some SignalStatus.pending →
        (scheduled_expire_signals st isExp).db.lookup sid = st.db.lookup sid) ∧
    (∀ (sid : ℕ) (st : BotState),
        (_handle_reject sid st).db = update_signal_status st.db sid SignalStatus.rejected ∧
        (_handle_cancel_execute sid st).db =
          update_signal_status st.db sid SignalStatus.rejected) := by
  refine ⟨fun _ _ => rfl, ?_, ?_, ?_, fun _ _ => ⟨rfl, rfl⟩⟩
  · intro env gate sid st hnone
    simp [_handle_confirm_execute, hnone]
  · intro env sid st hnone
    simp [_execute_order, hnone]
  · intro st isExp sid hnodup hnp
    have hrows : ∀ p ∈ st.db.filter (fun p => p.2 = SignalStatus.pending), p.1 ≠ sid := by
      intro p hp hps
      rw [List.mem_filter] at hp
      obtain ⟨hmem, hpend⟩ := hp
      simp only [decide_eq_true_eq] at hpend
      apply hnp
      have : ((sid, SignalStatus.pending) : ℕ × SignalStatus) ∈ st.db := by
        have := hmem
        rw [show p = (sid, SignalStatus.pending) from Prod.ext hps hpend] at this
        exact this
      exact lookup_of_mem_nodup st.db sid SignalStatus.pending hnodup this
    exact expire_foldl_lookup_ne isExp sid _ st hrows

/-- Witness for the amended C4: execution confirm on a signal gone from the
pending set is a no-op, and the expiry sweep leaves an `expired` record
alone. -/
theorem C4_status_recheck_partial_witness :
    _handle_confirm_execute ⟨.ok ⟨true, true⟩, .ok (), .ok (), .ok ⟨true, true⟩, .ok ()⟩
        .openNow 1 ⟨[(1, SignalStatus.expired)], []⟩ =
      (⟨[(1, SignalStatus.expired)], []⟩, none) ∧
    (scheduled_expire_signals ⟨[(1, SignalStatus.expired), (2, SignalStatus.pending)], []⟩
        (fun _ => true)).db.lookup 1 = some SignalStatus.expired := by
  constructor
  · exact C4_status_recheck_partial.2.1 _ _ _ _ rfl
  · have h := C4_status_recheck_partial.2.2.2.1
      ⟨[(1, SignalStatus.expired), (2, SignalStatus.pending)], []⟩ (fun _ => true) 1
      (by decide) (by decide)
    rw [h]
    rfl

/-- Reading off `noSelfOverlapB`: no shifted copy of `m` is a prefix of `m`. -/
theorem noSelfOverlap_spec (m : List Char) (h : noSelfOverlapB m = true) :
    ∀ d, 0 < d → d < m.length → ¬ (m.drop d <+: m) := by
  intro d hd hlt hpre
  have hall := List.all_eq_true.mp h d (List.mem_range.mpr hlt)
  simp only [Bool.or_eq_true, decide_eq_true_eq, Bool.not_eq_true'] at hall
  rcases hall with h0 | hnp
  · omega
  · rw [← List.isPrefixOf_iff_prefix] at hpre
    rw [hpre] at hnp
    exact Bool.true_eq_false.mp hnp

/-- A non-self-overlapping `m` that does not occur inside the non-empty `t`
is not a prefix of `t ++ m ++ r` (no occurrence can start inside `t`). -/
theorem marker_not_prefix_append (m t r : List Char)
    (hover : noSelfOverlapB m = true) (ht : t ≠ [])
    (hto : occursB m t = false) :
    m.isPrefixOf (t ++ m ++ r) = false := by
  by_contra hc
  rw [Bool.not_eq_false, List.isPrefixOf_iff_prefix] at hc
  by_cases hlen : m.length ≤ t.length
  · have hmt : m <+: t := by
      have heq := List.prefix_iff_eq_take.mp hc
      rw [List.append_assoc, List.take_append_eq_append_take,
        show m.length - t.length = 0 by omega, List.take_zero, List.append_nil] at heq
      rw [heq]
      exact List.take_prefix _ _
    have hpt : m.isPrefixOf t = true := List.isPrefixOf_iff_prefix.mpr hmt
    cases t with
    | nil => exact ht rfl
    | cons c rest =>
      rw [occursB, hpt, Bool.true_or] at hto
      exact Bool.true_eq_false.mp hto
  · push_neg at hlen
    have hdrop : m.drop t.length <+: m := by
      have heq := List.prefix_iff_eq_take.mp hc
      rw [List.append_assoc, List.take_append_eq_append_take,
        List.take_of_length_le (le_of_lt hlen)] at heq
      have h2 := congrArg (List.drop t.length) heq
      rw [List.drop_left] at h2
      rw [List.take_append_eq_append_take,
        show m.length - t.length - m.length = 0 by omega,
        List.take_zero, List.append_nil] at h2
      rw [h2]
      exact List.take_prefix _ _
    exact noSelfOverlap_spec m hover t.length (List.length_pos.mpr ht) hlen hdrop

/-- `pySplitF` does not depend on the budget as long as it suffices. -/
theorem pySplitF_fuel_irrel (sep : List Char) :
    ∀ (fuel fuel' : ℕ) (l : List Char), l.length ≤ fuel → l.length ≤ fuel' →
      pySplitF sep fuel l = pySplitF sep fuel' l := by
  intro fuel
  induction fuel with
  | zero =>
    intro fuel' l h _
    have : l = [] := List.eq_nil_of_length_eq_zero (by omega)
    subst this
    cases fuel' <;> rfl
  | succ f ih =>
    intro fuel' l h h'
    cases l with
    | nil => cases fuel' <;> rfl
    | cons c rest =>
      simp only [List.length_cons] at h h'
      obtain ⟨f', rfl⟩ : ∃ f', fuel' = f' + 1 := ⟨fuel' - 1, by omega⟩
      simp only [pySplitF]
      by_cases hc : sep ≠ [] ∧ sep.isPrefixOf (c :: rest)
      · rw [if_pos hc, if_pos hc]
        have hd : (rest.drop (sep.length - 1)).length ≤ f := by
          simp only [List.length_drop]; omega
        have hd' : (rest.drop (sep.length - 1)).length ≤ f' := by
          simp only [List.length_drop]; omega
        rw [ih f' _ hd hd']
      · rw [if_neg hc, if_neg hc, ih f' rest (by omega) (by omega)]

/-- `text.split(sep)` on a text without any occurrence of `sep`. -/
theorem pySplitF_no_occurrence (sep : List Char) :
    ∀ (l : List Char) (fuel : ℕ), l.length ≤ fuel → occursB sep l = false →
      pySplitF sep fuel l = [l] := by
  intro l
  induction l with
  | nil => intro fuel _ _; cases fuel <;> rfl
  | cons c rest ih =>
    intro fuel hf h
    simp only [List.length_cons] at hf
    obtain ⟨f, rfl⟩ : ∃ f, fuel = f + 1 := ⟨fuel - 1, by omega⟩
    rw [occursB, Bool.or_eq_false_iff] at h
    obtain ⟨h1, h2⟩ := h
    rw [pySplitF, if_neg (by simp [h1]), ih f (by omega) h2]

/-- `text.split(sep)` on a text without any occurrence of `sep`. -/
theorem pySplit_no_occurrence (sep : List Char) :
    ∀ l, occursB sep l = false → pySplit sep l = [l] := fun l =>
  pySplitF_no_occurrence sep l l.length le_rfl

/-- `text.split(sep)` pulled past one leading occurrence of `sep`: with no
occurrence inside `pre` and `sep` non-self-overlapping, the leftmost
occurrence in `pre ++ sep ++ r` is exactly at `pre`'s end. -/
theorem pySplit_marker_split (sep : List Char) (hsep : sep ≠ [])
    (hover : noSelfOverlapB sep = true) :
    ∀ (pre r : List Char), occursB sep pre = false →
      pySplit sep (pre ++ sep ++ r) = pre :: pySplit sep r := by
  suffices key : ∀ (pre r : List Char), occursB sep pre = false →
      pySplitF sep (pre ++ sep ++ r).length (pre ++ sep ++ r) =
        pre :: pySplitF sep r.length r by
    intro pre r hpre
    exact key pre r hpre
  intro pre
  induction pre with
  | nil =>
    intro r _
    obtain ⟨s0, stail, hs⟩ : ∃ s0 stail, sep = s0 :: stail := by
      cases hsep0 : sep with
      | nil => exact absurd hsep0 hsep
      | cons a b => exact ⟨a, b, rfl⟩
    simp only [List.nil_append]
    rw [show sep ++ r = s0 :: (stail ++ r) by rw [hs]; rfl]
    simp only [List.length_cons]
    rw [pySplitF, if_pos ⟨hsep, by
      rw [show s0 :: (stail ++ r) = sep ++ r by rw [hs]; rfl]
      exact List.isPrefixOf_iff_prefix.mpr (List.prefix_append sep r)⟩]
    rw [show sep.length - 1 = stail.length by rw [hs]; rfl,
      List.drop_left stail r]
    congr 1
    exact pySplitF_fuel_irrel sep _ _ r
      (by simp only [List.length_append]; omega) le_rfl
  | cons c p' ih =>
    intro r hpre
    rw [occursB, Bool.or_eq_false_iff] at hpre
    obtain ⟨h1, h2⟩ := hpre
    have hnp : sep.isPrefixOf ((c :: p') ++ sep ++ r) = false :=
      marker_not_prefix_append sep (c :: p') r hover (by simp)
        (by rw [occursB, Bool.or_eq_false_iff]; exact ⟨h1, h2⟩)
    rw [show (c :: p') ++ sep ++ r = c :: (p' ++ sep ++ r) from rfl]
    simp only [List.length_cons]
    rw [pySplitF, if_neg (by
      intro hcand
      rw [show c :: (p' ++ sep ++ r) = (c :: p') ++ sep ++ r from rfl] at hcand
      rw [hnp] at hcand
      exact Bool.false_ne_true hcand.2)]
    rw [ih r h2]

/-- `part.find(fence)` locates the fence right after a backtick-free body. -/
theorem pyFind_fence_at (body post : List Char) (h : backtick ∉ body) :
    pyFind fenceL (body ++ (fenceL ++ post)) = some body.length := by
  induction body with
  | nil =>
    simp only [List.nil_append]
    rw [show fenceL ++ post = backtick :: ([backtick, backtick] ++ post) from rfl]
    rw [pyFind, if_pos (by
      rw [show backtick :: ([backtick, backtick] ++ post) = fenceL ++ post from rfl]
      exact List.isPrefixOf_iff_prefix.mpr (List.prefix_append fenceL post))]
    rfl
  | cons c rest ih =>
    have hc : backtick ≠ c := fun he => h (he ▸ List.mem_cons_self c rest)
    rw [List.cons_append, pyFind, if_neg (by
      simp only [fenceL, List.isPrefixOf, Bool.and_eq_true]
      intro hcand
      exact absurd (eq_of_beq hcand.1) hc),
      ih (fun hm => h (List.mem_cons_of_mem c hm))]
    rfl

/-- A validated optional-number field agrees with its JSON member. -/
theorem optNumMatches_of_field (v : Option Json) (q : Option ℚ)
    (h : optFloatField v = some q) : optNumMatches v q := by
  rcases v with _ | j
  · simp only [optFloatField, Option.some.injEq] at h
    subst h
    trivial
  · cases j with
    | null => simp only [optFloatField, Option.some.injEq] at h; subst h; trivial
    | num x => simp only [optFloatField, Option.some.injEq] at h; subst h; rfl
    | bool b => simp [optFloatField] at h
    | str s => simp [optFloatField] at h
    | arr a => simp [optFloatField] at h
    | obj o => simp [optFloatField] at h

/-- A validated optional-string field agrees with its JSON member. -/
theorem optStrMatches_of_field (v : Option Json) (q : Option String)
    (h : optStrField v = some q) : optStrMatches v q := by
  rcases v with _ | j
  · simp only [optStrField, Option.some.injEq] at h
    subst h
    trivial
  · cases j with
    | null => simp only [optStrField, Option.some.injEq] at h; subst h; trivial
    | str x => simp only [optStrField, Option.some.injEq] at h; subst h; rfl
    | num x => simp [optStrField] at h
    | bool b => simp [optStrField] at h
    | arr a => simp [optStrField] at h
    | obj o => simp [optStrField] at h

/-- A successful `TradeAction(...)` lookup pins down the string value. -/
theorem tradeActionOfString_eq (a : List Char) (act : TradeAction)
    (h : tradeActionOfString a = some act) : a = actionString act := by
  unfold tradeActionOfString at h
  split_ifs at h with hb hs hh
  · injection h with h'; subst h'; exact hb
  · injection h with h'; subst h'; exact hs
  · injection h with h'; subst h'; exact hh

/-- A `TradeSignal` built by `signalOfJson` field-matches its JSON object. -/
theorem signalOfJson_fieldsMatch (j : Json) (s : TradeSignal)
    (h : signalOfJson j = .signal s) : fieldsMatch s j := by
  cases j with
  | null => simp [signalOfJson] at h
  | bool b => simp [signalOfJson] at h
  | num q => simp [signalOfJson] at h
  | str t => simp [signalOfJson] at h
  | arr xs => simp [signalOfJson] at h
  | obj members =>
    rw [signalOfJson] at h
    cases h1 : members.lookup "ticker".data with
    | none => simp [h1] at h
    | some tv =>
      simp only [h1] at h
      cases h2 : members.lookup "action".data with
      | none => simp [h2] at h
      | some av =>
        simp only [h2] at h
        cases av with
        | null => simp at h
        | bool b => simp at h
        | num q => simp at h
        | arr xs => simp at h
        | obj ms => simp at h
        | str a =>
          cases h3 : tradeActionOfString a with
          | none => simp [h3] at h
          | some act =>
            simp only [h3] at h
            cases tv with
            | null => simp at h
            | bool b => simp at h
            | num q => simp at h
            | arr xs => simp at h
            | obj ms => simp at h
            | str t =>
              cases h4 : optFloatField (members.lookup "quantity".data) with
              | none => simp [h4] at h
              | some qty =>
                simp only [h4] at h
                cases h5 : optStrField (members.lookup "order_type".data) with
                | none => simp [h5] at h
                | some ot =>
                  simp only [h5] at h
                  cases h6 : optFloatField (members.lookup "price".data) with
                  | none => simp [h6] at h
                  | some pr =>
                    simp only [h6] at h
                    cases h7 : optFloatField (members.lookup "confidence".data) with
                    | none => simp [h7] at h
                    | some cf =>
                      simp only [h7] at h
                      cases h8 : optStrField (members.lookup "reason".data) with
                      | none => simp [h8] at h
                      | some rs =>
                        simp only [h8] at h
                        cases h9 : optFloatField (members.lookup "stop_loss".data) with
                        | none => simp [h9] at h
                        | some sl =>
                          simp only [h9] at h
                          cases h10 : optFloatField (members.lookup "take_profit".data) with
                          | none => simp [h10] at h
                          | some tp =>
                            simp only [h10, ParsedBlock.signal.injEq] at h
                            subst h
                            refine ⟨h1, ?_, optNumMatches_of_field _ _ h4,
                              optStrMatches_of_field _ _ h5,
                              optNumMatches_of_field _ _ h6,
                              optNumMatches_of_field _ _ h7,
                              optStrMatches_of_field _ _ h8,
                              optNumMatches_of_field _ _ h9,
                              optNumMatches_of_field _ _ h10⟩
                            rw [h2, ← tradeActionOfString_eq a act h3]

/-- C8: a response text containing exactly one well-formed trade_signal
marker block yields exactly one `TradeSignal` whose fields match the JSON in
the block; if the block is malformed in one of the caught ways (invalid
JSON, missing `ticker` or `action`, an action outside BUY/SELL/HOLD, or a
field failing validation) the extractor yields zero signals and does not
raise (`.ok []`).  `pre`, `body`, `post` are the text around and inside the
block; the hypotheses say the marker occurs nowhere else and the JSON body
contains no backtick. -/
theorem C8_extract_round_trip (pre body post : List Char)
    (h1 : occursB markerL pre = false)
    (h2 : occursB markerL (body ++ (fenceL ++ post)) = false)
    (h3 : backtick ∉ body) :
    (∀ s, parseBlock (pyStrip body) = .signal s →
        _extract_trade_signals (pre ++ markerL ++ (body ++ (fenceL ++ post))) = .ok [s] ∧
        ∃ j, jsonParse (pyStrip body) = some j ∧ fieldsMatch s j) ∧
    (parseBlock (pyStrip body) = .skipped →
        _extract_trade_signals (pre ++ markerL ++ (body ++ (fenceL ++ post))) = .ok []) := by
  have hmne : markerL ≠ [] := by simp [markerL, fenceL]
  have hover : noSelfOverlapB markerL = true := by decide
  have hsplit := pySplit_marker_split markerL hmne hover pre (body ++ (fenceL ++ post)) h1
  have hrest := pySplit_no_occurrence markerL (body ++ (fenceL ++ post)) h2
  have hfind := pyFind_fence_at body post h3
  have htake : (body ++ (fenceL ++ post)).take body.length = body :=
    List.take_left body (fenceL ++ post)
  constructor
  · intro s hs
    constructor
    · unfold _extract_trade_signals
      rw [hsplit, hrest]
      unfold extractLoop
      simp only [hfind, htake, hs, extractLoop, List.nil_append]
    · cases hj : jsonParse (pyStrip body) with
      | none => rw [parseBlock, hj] at hs; simp at hs
      | some j =>
        refine ⟨j, rfl, signalOfJson_fieldsMatch j s ?_⟩
        rw [parseBlock, hj] at hs
        exact hs
  · intro hs
    unfold _extract_trade_signals
    rw [hsplit, hrest]
    unfold extractLoop
    simp only [hfind, htake, hs, extractLoop]

set_option maxRecDepth 100000 in
/-- Witness for C8: a response with one well-formed block yields exactly its
one signal; the same response with a malformed block (action `"WAIT"`)
yields zero signals without raising. -/
theorem C8_extract_round_trip_witness :
    _extract_trade_signals (c8Pre ++ markerL ++ (c8GoodBody ++ (fenceL ++ c8Post))) =
      .ok [c8GoodSignal] ∧
    _extract_trade_signals (c8Pre ++ markerL ++ (c8BadBody ++ (fenceL ++ c8Post))) =
      .ok [] := by
  constructor
  · exact ((C8_extract_round_trip c8Pre c8GoodBody c8Post (by decide) (by decide)
      (by decide)).1 c8GoodSignal (by decide)).1
  · exact (C8_extract_round_trip c8Pre c8BadBody c8Post (by decide) (by decide)
      (by decide)).2 (by decide)

end IBMCP
